import Mathlib

/-!
Shallow embedding of the findings-aggregation engine in
`src/app/security_analyzer.py` (repository `skagos/tfreader`), together with
proofs of the specification's claims about it.

Conventions of the embedding:
* Python `str` values are Lean `String`s; the Python string operations used by
  the source (`strip`, `lower`, `split`, `endswith`, `find`, `rfind`, substring
  membership) are re-implemented over `List Char` so that they reduce in the
  kernel.  They agree with CPython on the ASCII inputs the engine deals with.
* Parsed JSON values are modelled by the inductive `Json`; JSON numbers are
  modelled as integers (no claim depends on non-integral numbers).  The
  library call `json.loads` is an abstract parameter `String → Option Json`
  (`none` models `json.JSONDecodeError`).
* The process environment (executable lookup, subprocess execution, the file
  system) is a record `Env` of abstract functions; the engine is a pure
  function of that record.
* Operations that can raise in Python (`for` over a non-iterable, `list.index`,
  `dict[key]`) are modelled in `Option`: a `none` result of `analyze` marks an
  input on which the Python code raises an exception.
-/

/-! ## Python string primitives (over `List Char`) -/

/-- Default whitespace characters stripped by Python's `str.strip()`
    (the ASCII ones; the engine never feeds it non-ASCII whitespace). -/
def isPySpace (c : Char) : Bool :=
  c == ' ' || c == '\t' || c == '\n' || c == '\r' || c == '\x0b' || c == '\x0c'

/-- `str.strip()` on a character list. -/
def pyStripL (cs : List Char) : List Char :=
  ((cs.dropWhile isPySpace).reverse.dropWhile isPySpace).reverse

/-- Python `s.strip()`. -/
def pyStrip (s : String) : String := String.mk (pyStripL s.data)

/-- Python `s.lower()` (ASCII case folding, which is all the engine needs). -/
def pyLower (s : String) : String := String.mk (s.data.map Char.toLower)

/-- Boolean list-prefix test. -/
def isPrefixB : List Char → List Char → Bool
  | [], _ => true
  | _ :: _, [] => false
  | x :: xs, y :: ys => x == y && isPrefixB xs ys

/-- Python `s.endswith(t)`. -/
def pyEndswith (s t : String) : Bool :=
  isPrefixB t.data.reverse s.data.reverse

/-- Substring test on character lists (`needle in hay` for Python strings). -/
def containsSubL (needle : List Char) : List Char → Bool
  | [] => isPrefixB needle []
  | h :: t => isPrefixB needle (h :: t) || containsSubL needle t

/-- Python `needle in hay` for strings. -/
def pyInStr (needle hay : String) : Bool := containsSubL needle.data hay.data

/-- Python `c in s` for a single character. -/
def pyContainsChar (s : String) (c : Char) : Bool := s.data.any (· == c)

/-- One step of splitting on a separator character (used via `foldr`). -/
def splitCharAux (sep : Char) (x : Char) (acc : List (List Char)) : List (List Char) :=
  match acc with
  | [] => [[x]]
  | a :: as => if x == sep then [] :: (a :: as) else (x :: a) :: as

/-- Python `s.split(sep)` for a one-character separator: every occurrence of the
    separator starts a new (possibly empty) chunk; `"".split(".") = [""]`. -/
def pySplitChar (sep : Char) (cs : List Char) : List (List Char) :=
  cs.foldr (splitCharAux sep) [[]]

/-- Python `s.find(c)`: index of the first occurrence, `-1` when absent. -/
def pyFindL (cs : List Char) (c : Char) : Int :=
  match cs.findIdx? (· == c) with
  | some i => (i : Int)
  | none => -1

/-- Python `s.rfind(c)`: index of the last occurrence, `-1` when absent. -/
def pyRfindL (cs : List Char) (c : Char) : Int :=
  match cs.reverse.findIdx? (· == c) with
  | some i => ((cs.length - 1 - i : Nat) : Int)
  | none => -1

/-- Python `list.index` as an `Option` (Python raises `ValueError` on `none`). -/
def pyListIndex : List String → String → Option Nat
  | [], _ => none
  | y :: ys, x => if y == x then some 0 else (pyListIndex ys x).map (· + 1)

/-- Python `a or b` for strings (first operand when non-empty). -/
def pyOrStr (a b : String) : String := if a ≠ "" then a else b

/-- The code-point sequence of a string; Python compares strings as these
    sequences, lexicographically. -/
def codePoints (s : String) : List Nat := s.data.map Char.toNat

/-! ## Parsed JSON values -/

/-- A parsed JSON document, as produced by `json.loads`.  Numbers are modelled
    as integers; no behaviour the claims mention depends on non-integral
    numbers. -/
inductive Json where
  | null : Json
  | bool (b : Bool) : Json
  | num (n : Int) : Json
  | str (s : String) : Json
  | arr (xs : List Json) : Json
  | obj (kvs : List (String × Json)) : Json

/-- Python truthiness of a parsed JSON value. -/
def pyTruthy : Json → Bool
  | .null => false
  | .bool b => b
  | .num n => n != 0
  | .str s => s != ""
  | .arr xs => !xs.isEmpty
  | .obj kvs => !kvs.isEmpty

mutual
/-- Python `repr` of a parsed JSON value (containers use `repr` of their
    elements, scalars print the CPython way). -/
def pyRepr : Json → String
  | .null => "None"
  | .bool true => "True"
  | .bool false => "False"
  | .num n => toString n
  | .str s => "\x27" ++ s ++ "\x27"
  | .arr xs => "[" ++ pyReprArr xs ++ "]"
  | .obj kvs => "\x7b" ++ pyReprObj kvs ++ "\x7d"

/-- Comma-separated `repr` of list elements. -/
def pyReprArr : List Json → String
  | [] => ""
  | [x] => pyRepr x
  | x :: xs => pyRepr x ++ ", " ++ pyReprArr xs

/-- Comma-separated `repr` of dict items. -/
def pyReprObj : List (String × Json) → String
  | [] => ""
  | [kv] => "\x27" ++ kv.1 ++ "\x27: " ++ pyRepr kv.2
  | kv :: kvs => "\x27" ++ kv.1 ++ "\x27: " ++ pyRepr kv.2 ++ ", " ++ pyReprObj kvs
end

/-- Python `str(...)` of a parsed JSON value. -/
def pyStr : Json → String
  | .str s => s
  | j => pyRepr j

/-- Python `a or b` on parsed JSON values. -/
def pyOr (a b : Json) : Json := if pyTruthy a then a else b

/-- `item.get(k)` on a parsed JSON object (missing key yields `None`). -/
def jGet (kvs : List (String × Json)) (k : String) : Json :=
  (kvs.lookup k).getD Json.null

/-- `item.get(k, d)` on a parsed JSON object, with explicit default. -/
def jGetD (kvs : List (String × Json)) (k : String) (d : Json) : Json :=
  (kvs.lookup k).getD d

/-- Python `for ... in v`: the sequence of iterates of a parsed JSON value, or
    `none` when iteration raises `TypeError` (numbers, booleans, `None`).
    Iterating a dict yields its keys; iterating a string yields its
    one-character strings. -/
def pyIter : Json → Option (List Json)
  | .arr xs => some xs
  | .obj kvs => some (kvs.map (fun p => Json.str p.1))
  | .str s => some (s.data.map (fun c => Json.str (String.mk [c])))
  | _ => none

/-! ## Data model (`src/app/schemas.py`) -/

/-- `ResourceRecord`: a declared infrastructure resource (the engine only
    reads `file`, `resource_type` and `resource_name`; `config` is carried
    along unread). -/
structure ResourceRecord where
  file : String
  resource_type : String
  resource_name : String
  config : List (String × Json) := []

/-- `SecurityFinding`: the canonical output unit. -/
structure SecurityFinding where
  resource : String
  resource_type : String
  resource_name : String
  file : String
  severity : String
  category : String
  source_library : String
  issue : String
  recommendation : String
  rule_id : String
  compliance : List String
deriving DecidableEq

/-- `SecurityScore`: numeric score plus the severity-count breakdown. -/
structure SecurityScore where
  score : Int
  by_severity : List (String × Nat)
deriving DecidableEq

/-- `SecurityAnalysisResponse`: the aggregate result of one analysis run.
    Dicts are modelled as association lists in Python-dict insertion order. -/
structure SecurityAnalysisResponse where
  findings_count : Nat
  findings : List SecurityFinding
  findings_by_resource : List (String × List SecurityFinding)
  score : SecurityScore
  scanner_status : List (String × String)
  scanner_errors : List String
  summary : String
  report_markdown : String := ""
  report_file : Option String := none
deriving DecidableEq

/-- `_ScannerResult`: per-scanner execution result. -/
structure ScannerResult where
  findings : List SecurityFinding
  status : String
  error : Option String := none
deriving DecidableEq

/-! ## Severity and category normalisation (`security_analyzer.py` 13-31, 53-65) -/

/-- `_SEVERITY_WEIGHT` (line 13). -/
def severityWeightTable : List (String × Int) :=
  [("low", 2), ("medium", 6), ("high", 12), ("critical", 20)]

/-- `_SCANNERS` (line 20). -/
def scannerNames : List String := ["checkov", "tfsec", "terrascan"]

/-- `_normalize_severity` (lines 23-31): `str(value or "").strip().lower()`
    then the bucket tables, defaulting to `"low"`. -/
def normalizeSeverity (value : Json) : String :=
  let text := pyLower (pyStrip (if pyTruthy value then pyStr value else ""))
  if text = "critical" ∨ text = "very_high" then "critical"
  else if text = "high" ∨ text = "error" then "high"
  else if text = "medium" ∨ text = "moderate" ∨ text = "warning" then "medium"
  else "low"

/-- `_detect_category` (lines 53-65): keyword buckets over the lowercased
    concatenation of resource type and issue text. -/
def detectCategory (resource_type issue : String) : String :=
  let key := pyLower (resource_type ++ " " ++ issue)
  if ["role", "identity", "rbac", "iam", "principal"].any (fun x => pyInStr x key) then "identity"
  else if ["nsg", "network", "inbound", "egress", "firewall", "public ip"].any (fun x => pyInStr x key) then "network"
  else if ["storage", "blob", "s3", "bucket"].any (fun x => pyInStr x key) then "storage"
  else if ["vm", "compute", "container", "kubernetes", "disk"].any (fun x => pyInStr x key) then "compute"
  else if ["monitor", "log", "diagnostic", "alert"].any (fun x => pyInStr x key) then "monitoring"
  else "general"

/-! ## Lenient JSON loading (`_safe_json_load`, lines 34-50) -/

/-- `_safe_json_load`: strict parse first; on `JSONDecodeError` fall back to
    the span from the first `{` to the last `}` and re-parse; anything that is
    not a JSON object becomes the empty dict.  `parse` abstracts `json.loads`
    (`none` = `JSONDecodeError`). -/
def safeJsonLoad (parse : String → Option Json) (raw : String) : List (String × Json) :=
  let payload := pyStrip raw
  if payload = "" then []
  else
    match parse payload with
    | some (.obj kvs) => kvs
    | some _ => []
    | none =>
      let cs := payload.data
      let start := pyFindL cs '{'
      let stop := pyRfindL cs '}'
      if start = -1 ∨ stop = -1 ∨ stop ≤ start then []
      else
        match parse (String.mk ((cs.drop start.toNat).take (stop.toNat + 1 - start.toNat))) with
        | some (.obj kvs) => kvs
        | _ => []

/-! ## Resource matcher (`_ResourceMatcher`, lines 75-116) -/

/-- Canonical resource id, `resource_type + "." + resource_name`. -/
def canonicalId (r : ResourceRecord) : String :=
  r.resource_type ++ "." ++ r.resource_name

/-- Python-dict insertion: replacing an existing key keeps its position,
    a new key is appended. -/
def dictInsert {α : Type} (d : List (String × α)) (k : String) (v : α) : List (String × α) :=
  if (d.lookup k).isSome then d.map (fun p => if p.1 = k then (k, v) else p)
  else d ++ [(k, v)]

/-- `_ResourceMatcher` state: the resource list and the id-keyed dict
    (`by_id`, built with last-write-wins on duplicate canonical ids). -/
structure Matcher where
  resources : List ResourceRecord
  by_id : List (String × ResourceRecord)

/-- `_ResourceMatcher.__init__` (lines 76-81). -/
def mkMatcher (resources : List ResourceRecord) : Matcher :=
  { resources := resources
    by_id := resources.foldl (fun d r => dictInsert d (canonicalId r) r) [] }

/-- The `by_name` index for one name: every record sharing that
    `resource_name`, in resource-list order (lines 79-81). -/
def Matcher.byName (m : Matcher) (name : String) : List ResourceRecord :=
  m.resources.filter (fun r => r.resource_name == name)

/-- Fallback-chain step 2 (lines 95-98): first dict entry whose canonical id is
    a suffix of the reference. -/
def Matcher.suffixHit (m : Matcher) (raw : String) : Option (String × ResourceRecord) :=
  if raw ≠ "" then m.by_id.find? (fun p => pyEndswith raw p.1) else none

/-- Fallback-chain step 3 (lines 100-107): for a dotted reference with at least
    two non-empty segments, the unique record named by the last segment. -/
def Matcher.dottedHit (m : Matcher) (raw : String) : Option ResourceRecord :=
  if raw ≠ "" ∧ pyContainsChar raw '.' then
    let parts := (pySplitChar '.' raw.data).filter (· ≠ [])
    if parts.length ≥ 2 then
      match parts.getLast? with
      | some nameCs =>
        match m.byName (String.mk nameCs) with
        | [r] => some r
        | _ => none
      | none => none
    else none
  else none

/-- Fallback-chain step 4 (lines 109-111): a reference that is a known resource
    name with exactly one owner. -/
def Matcher.bareHit (m : Matcher) (raw : String) : Option ResourceRecord :=
  if raw ≠ "" then
    match m.byName raw with
    | [r] => some r
    | _ => none
  else none

/-- Fallback-chain step 5 (lines 113-116): synthesize an identifier from the
    raw reference and the file hint. -/
def synthFallback (raw fileHint : String) : String × String × String × String :=
  let guessed_type :=
    if pyContainsChar raw '.' then String.mk ((pySplitChar '.' raw.data).headD [])
    else "unknown_resource"
  let guessed_name :=
    if raw ≠ "" then String.mk ((pySplitChar '.' raw.data).getLastD [])
    else "unmapped"
  let rid := if raw ≠ "" then raw else guessed_type ++ "." ++ guessed_name
  (rid, guessed_type, guessed_name, fileHint)

/-- `_ResourceMatcher.resolve` (lines 83-116): the prioritized fallback chain,
    first match wins.  Returns `(canonical_id, resource_type, resource_name,
    file)`. -/
def Matcher.resolve (m : Matcher) (rawResource rawFile : Option String) :
    String × String × String × String :=
  let raw := pyStrip (rawResource.getD "")
  let fileHint := pyStrip (rawFile.getD "")
  match m.by_id.lookup raw with
  | some r => (raw, r.resource_type, r.resource_name, r.file)
  | none =>
    match m.suffixHit raw with
    | some p => (p.1, p.2.resource_type, p.2.resource_name, p.2.file)
    | none =>
      match m.dottedHit raw with
      | some r => (canonicalId r, r.resource_type, r.resource_name, r.file)
      | none =>
        match m.bareHit raw with
        | some r => (canonicalId r, r.resource_type, r.resource_name, r.file)
        | none => synthFallback raw fileHint

/-! ## Process environment and command execution (lines 199-215) -/

/-- The observable behaviour of one `subprocess.run` call: completion with an
    exit code and raw stdout/stderr, `FileNotFoundError`, or
    `subprocess.TimeoutExpired`. -/
inductive RunOutcome where
  | completed (code : Int) (stdout stderr : String) : RunOutcome
  | notFound : RunOutcome
  | timedOut : RunOutcome

/-- The process environment the engine runs against: `shutil.which`, the
    subprocess layer (keyed by command and working directory), `json.loads`,
    and the `pathlib` queries used by scan-directory resolution. -/
structure Env where
  which : String → Option String
  run : List String → String → RunOutcome
  jsonParse : String → Option Json
  pathExists : String → Bool
  isDir : String → Bool
  resolvePath : String → String
  parentResolved : String → String
  isAbsolute : String → Bool

/-- `SecurityAnalyzer._run_command` (lines 199-215): exit code, stripped
    stdout, stripped stderr; `FileNotFoundError` becomes code 127 and
    `TimeoutExpired` the sentinel code 124 (timeout is the default 300s). -/
def runCommand (env : Env) (command : List String) (cwd : String) : Int × String × String :=
  match env.run command cwd with
  | .completed code out err => (code, pyStrip out, pyStrip err)
  | .notFound => (127, "", "Command not found: " ++ command.headD "")
  | .timedOut => (124, "", "Command timed out after 300s: " ++ String.intercalate " " command)

/-! ## Scanner adapters (lines 217-356) -/

/-- The checkov command line (line 222). -/
def checkovCommand (exe scanDir : String) : List String :=
  [exe, "-d", scanDir, "--framework", "terraform", "--output", "json", "--quiet"]

/-- The tfsec command line (line 268). -/
def tfsecCommand (exe scanDir : String) : List String :=
  [exe, scanDir, "--format", "json", "--no-color"]

/-- The terrascan command line (line 317). -/
def terrascanCommand (exe scanDir : String) : List String :=
  [exe, "scan", "-d", scanDir, "-i", "terraform", "-o", "json"]

/-- One iteration of the checkov item loop (lines 235-258): dict items become
    findings, everything else is skipped. -/
def checkovFindingOfItem (m : Matcher) (item : Json) : Option SecurityFinding :=
  match item with
  | .obj kv =>
    let issue := pyStr (pyOr (jGet kv "check_name") (pyOr (jGet kv "check_id") (.str "Policy violation")))
    let recommendation := pyStr (pyOr (jGet kv "guideline") (pyOr (jGet kv "details") (.str "Review and remediate this policy violation.")))
    let res := m.resolve (some (pyStr (pyOr (jGet kv "resource") (.str ""))))
                         (some (pyStr (pyOr (jGet kv "file_path") (.str ""))))
    some { resource := res.1, resource_type := res.2.1, resource_name := res.2.2.1,
           file := res.2.2.2,
           severity := normalizeSeverity (jGet kv "severity"),
           category := detectCategory res.2.1 issue,
           source_library := "checkov",
           issue := issue, recommendation := recommendation,
           rule_id := pyStr (pyOr (jGet kv "check_id") (.str "CHECKOV.UNKNOWN")),
           compliance := [] }
  | _ => none

/-- `SecurityAnalyzer._run_checkov` (lines 217-261).  `none` models the
    uncaught `TypeError` raised when `failed_checks` parses to a
    non-iterable value. -/
def runCheckov (env : Env) (scanDir : String) (m : Matcher) : Option ScannerResult :=
  match env.which "checkov" with
  | none => some { findings := [], status := "unavailable",
                   error := some "checkov executable not found on PATH." }
  | some exe =>
    let r := runCommand env (checkovCommand exe scanDir) scanDir
    if r.1 ≠ 0 ∧ r.1 ≠ 1 then
      some { findings := [], status := "error",
             error := some ("checkov failed (exit " ++ toString r.1 ++ "): " ++ pyOrStr r.2.2 r.2.1) }
    else
      let payload := safeJsonLoad env.jsonParse r.2.1
      let results := jGetD payload "results" (Json.obj [])
      let failed := match results with
        | .obj kvs => jGetD kvs "failed_checks" (Json.arr [])
        | _ => Json.arr []
      match pyIter failed with
      | none => none
      | some items =>
        some { findings := items.filterMap (checkovFindingOfItem m), status := "ok", error := none }

/-- One iteration of the tfsec item loop (lines 280-307). -/
def tfsecFindingOfItem (m : Matcher) (item : Json) : Option SecurityFinding :=
  match item with
  | .obj kv =>
    let location := jGetD kv "location" (Json.obj [])
    let rawFile := match location with
      | .obj lkv => pyStr (pyOr (jGet lkv "filename") (.str ""))
      | _ => ""
    let issue := pyStr (pyOr (jGet kv "description") (pyOr (jGet kv "rule_description") (.str "Policy violation")))
    let recommendation := pyStr (pyOr (jGet kv "resolution") (.str "Review and remediate this policy violation."))
    let res := m.resolve (some (pyStr (pyOr (jGet kv "resource") (.str "")))) (some rawFile)
    some { resource := res.1, resource_type := res.2.1, resource_name := res.2.2.1,
           file := res.2.2.2,
           severity := normalizeSeverity (jGet kv "severity"),
           category := detectCategory res.2.1 issue,
           source_library := "tfsec",
           issue := issue, recommendation := recommendation,
           rule_id := pyStr (pyOr (jGet kv "long_id") (pyOr (jGet kv "rule_id") (.str "TFSEC.UNKNOWN"))),
           compliance := [] }
  | _ => none

/-- `SecurityAnalyzer._run_tfsec` (lines 263-310). -/
def runTfsec (env : Env) (scanDir : String) (m : Matcher) : Option ScannerResult :=
  match env.which "tfsec" with
  | none => some { findings := [], status := "unavailable",
                   error := some "tfsec executable not found on PATH." }
  | some exe =>
    let r := runCommand env (tfsecCommand exe scanDir) scanDir
    if r.1 ≠ 0 ∧ r.1 ≠ 1 then
      some { findings := [], status := "error",
             error := some ("tfsec failed (exit " ++ toString r.1 ++ "): " ++ pyOrStr r.2.2 r.2.1) }
    else
      let payload := safeJsonLoad env.jsonParse r.2.1
      let results := jGetD payload "results" (Json.arr [])
      match pyIter results with
      | none => none
      | some items =>
        some { findings := items.filterMap (tfsecFindingOfItem m), status := "ok", error := none }

/-- One iteration of the terrascan violation loop (lines 330-353). -/
def terrascanFindingOfItem (m : Matcher) (item : Json) : Option SecurityFinding :=
  match item with
  | .obj kv =>
    let issue := pyStr (pyOr (jGet kv "description") (pyOr (jGet kv "rule_name") (.str "Policy violation")))
    let recommendation := pyStr (pyOr (jGet kv "resolution") (.str "Review and remediate this policy violation."))
    let res := m.resolve (some (pyStr (pyOr (jGet kv "resource_name") (.str ""))))
                         (some (pyStr (pyOr (jGet kv "file") (.str ""))))
    some { resource := res.1, resource_type := res.2.1, resource_name := res.2.2.1,
           file := res.2.2.2,
           severity := normalizeSeverity (jGet kv "severity"),
           category := detectCategory res.2.1 issue,
           source_library := "terrascan",
           issue := issue, recommendation := recommendation,
           rule_id := pyStr (pyOr (jGet kv "rule_id") (pyOr (jGet kv "rule_name") (.str "TERRASCAN.UNKNOWN"))),
           compliance := [] }
  | _ => none

/-- `SecurityAnalyzer._run_terrascan` (lines 312-356); exit codes 0 and 3 are
    accepted. -/
def runTerrascan (env : Env) (scanDir : String) (m : Matcher) : Option ScannerResult :=
  match env.which "terrascan" with
  | none => some { findings := [], status := "unavailable",
                   error := some "terrascan executable not found on PATH." }
  | some exe =>
    let r := runCommand env (terrascanCommand exe scanDir) scanDir
    if r.1 ≠ 0 ∧ r.1 ≠ 3 then
      some { findings := [], status := "error",
             error := some ("terrascan failed (exit " ++ toString r.1 ++ "): " ++ pyOrStr r.2.2 r.2.1) }
    else
      let payload := safeJsonLoad env.jsonParse r.2.1
      let results := jGetD payload "results" (Json.obj [])
      let violations := match results with
        | .obj kvs => jGetD kvs "violations" (Json.arr [])
        | _ => Json.arr []
      match pyIter violations with
      | none => none
      | some items =>
        some { findings := items.filterMap (terrascanFindingOfItem m), status := "ok", error := none }

/-! ## Scan-directory resolution (`_resolve_scan_dir`, lines 184-197) -/

/-- The parent directories collected by `_resolve_scan_dir` (lines 189-193):
    the resolved parent of every resource file that is absolute and exists, in
    resource order (the Python code stores them in a set; deduplication happens
    at the use site). -/
def candidateParents (env : Env) (resources : List ResourceRecord) : List String :=
  resources.filterMap (fun r =>
    if env.isAbsolute r.file && env.pathExists r.file then some (env.parentResolved r.file)
    else none)

/-- The inference branch of `_resolve_scan_dir` (lines 189-197): the set of
    candidate parents, used only when it is a singleton. -/
def inferScanDir (env : Env) (resources : List ResourceRecord) : Option String :=
  let parents := (candidateParents env resources).dedup
  if parents.length = 1 then parents.head? else none

/-- `SecurityAnalyzer._resolve_scan_dir` (lines 184-197).  A truthy explicit
    `scan_dir` is expanded and resolved and used only when it exists and is a
    directory; a falsy one (absent or empty) falls through to inference. -/
def resolveScanDir (env : Env) (resources : List ResourceRecord) (scanDir : Option String) :
    Option String :=
  match scanDir with
  | some s =>
    if s ≠ "" then
      let target := env.resolvePath s
      if env.pathExists target && env.isDir target then some target else none
    else inferScanDir env resources
  | none => inferScanDir env resources

/-! ## Sorting, grouping, scoring (lines 146-182) -/

/-- The severity ranking list of the sort key (line 148). -/
def severityOrder : List String := ["critical", "high", "medium", "low"]

/-- The sort key of line 147-151 as a lexicographic triple; strings are
    compared as their code-point sequences, exactly as Python compares them.
    The `getD 0` is only reached when `list.index` would raise, which
    `assembleResponse` rules out before sorting. -/
def sortKey (f : SecurityFinding) : Lex (Nat × Lex (List Nat × List Nat)) :=
  toLex ((pyListIndex severityOrder f.severity).getD 0,
         toLex (codePoints f.source_library, codePoints f.resource))

/-- The sort order on findings used by `findings.sort(key=...)`. -/
def FindingLe (f g : SecurityFinding) : Prop := sortKey f ≤ sortKey g

instance : DecidableRel FindingLe :=
  fun f g => inferInstanceAs (Decidable (sortKey f ≤ sortKey g))

instance : IsTotal SecurityFinding FindingLe :=
  ⟨fun f g => le_total (sortKey f) (sortKey g)⟩

instance : IsTrans SecurityFinding FindingLe :=
  ⟨fun _ _ _ h1 h2 => le_trans h1 h2⟩

/-- The sort of line 146: a stable sort by `sortKey` (insertion sort with a
    non-strict total order is stable, like Python's sort). -/
def sortFindings (fs : List SecurityFinding) : List SecurityFinding :=
  fs.insertionSort FindingLe

/-- Lines 154-156: group findings by canonical resource id, keys in first-seen
    order, each group in list order. -/
def groupByResource (fs : List SecurityFinding) : List (String × List SecurityFinding) :=
  fs.foldl (fun acc f =>
    if (acc.lookup f.resource).isSome then
      acc.map (fun p => if p.1 = f.resource then (p.1, p.2 ++ [f]) else p)
    else acc ++ [(f.resource, [f])]) []

/-- Lines 158-160: severity tally over the findings list (in the fixed dict
    order critical, high, medium, low). -/
def severityCounts (fs : List SecurityFinding) : List (String × Nat) :=
  [("critical", fs.countP (fun f => f.severity == "critical")),
   ("high", fs.countP (fun f => f.severity == "high")),
   ("medium", fs.countP (fun f => f.severity == "medium")),
   ("low", fs.countP (fun f => f.severity == "low"))]

/-- `SecurityAnalyzer._calculate_score` (lines 180-182). -/
def calculateScore (counts : List (String × Nat)) : Int :=
  let penalty := (counts.map (fun p => ((severityWeightTable.lookup p.1).getD 0) * (p.2 : Int))).sum
  max 0 (min 100 (100 - penalty))

/-- Python `if result.error: scanner_errors.append(result.error)` (lines
    143-144): only a truthy (non-`None`, non-empty) error is appended. -/
def pyErrList : Option String → List String
  | some s => if s ≠ "" then [s] else []
  | none => []

/-- Lines 146-178 of `analyze`: sort, group, tally, score and summarize.
    The guard mirrors the two partial operations of that span — the sort key's
    `list.index` and the `severity_counts[...]` update — which raise exactly
    when some finding's severity is outside `severityOrder`. -/
def assembleResponse (status : List (String × String)) (scannerErrors : List String)
    (findings : List SecurityFinding) : Option SecurityAnalysisResponse :=
  if findings.all (fun f => severityOrder.contains f.severity) then
    let sorted := sortFindings findings
    let counts := severityCounts sorted
    let score := calculateScore counts
    let summary0 :=
      "Detected " ++ toString sorted.length ++ " finding(s) from scanner libraries (checkov=" ++
        ((status.lookup "checkov").getD "") ++ ", tfsec=" ++ ((status.lookup "tfsec").getD "") ++
        ", terrascan=" ++ ((status.lookup "terrascan").getD "") ++ ")."
    let summary :=
      if scannerErrors ≠ [] then summary0 ++ " Scanner notes: " ++ String.intercalate " | " scannerErrors
      else summary0
    some { findings_count := sorted.length
           findings := sorted
           findings_by_resource := groupByResource sorted
           score := { score := score, by_severity := counts }
           scanner_status := status
           scanner_errors := scannerErrors
           summary := summary }
  else none

/-- The explanatory note recorded when no scan directory is available
    (lines 129-131). -/
def skipNote : String :=
  "Scan directory was not provided or could not be inferred; external scanners were skipped."

/-- `SecurityAnalyzer.analyze` (lines 120-178).  A `none` result marks an input
    on which the Python method raises an exception. -/
def analyze (env : Env) (resources : List ResourceRecord) (scanDir : Option String) :
    Option SecurityAnalysisResponse :=
  let matcher := mkMatcher resources
  match resolveScanDir env resources scanDir with
  | none =>
    assembleResponse
      [("checkov", "skipped"), ("tfsec", "skipped"), ("terrascan", "skipped")]
      [skipNote] []
  | some dir => do
    let checkov ← runCheckov env dir matcher
    let tfsec ← runTfsec env dir matcher
    let terrascan ← runTerrascan env dir matcher
    assembleResponse
      [("checkov", checkov.status), ("tfsec", tfsec.status), ("terrascan", terrascan.status)]
      (pyErrList checkov.error ++ pyErrList tfsec.error ++ pyErrList terrascan.error)
      (checkov.findings ++ tfsec.findings ++ terrascan.findings)

/-! ## The ordering asserted by the specification -/

/-- The severity rank used by the sort key: position in `severityOrder`
    (critical first), so smaller rank = more severe. -/
def severityRank (f : SecurityFinding) : Nat :=
  (pyListIndex severityOrder f.severity).getD 0

/-- Strict code-point-lexicographic order on strings (how Python compares
    strings). -/
def specStrictLt (a b : String) : Prop := codePoints a < codePoints b

/-- Modelled from the spec's ordering clause: findings are ordered
    severity-descending (critical first), ties broken by `source_library`
    ascending, then by canonical resource id ascending.  Stated independently
    of the code's sort key so the two can be compared. -/
def SpecFindingOrder (f g : SecurityFinding) : Prop :=
  severityRank f < severityRank g ∨
    (severityRank f = severityRank g ∧
      (specStrictLt f.source_library g.source_library ∨
        (f.source_library = g.source_library ∧
          (specStrictLt f.resource g.resource ∨ f.resource = g.resource))))

/-! ## Concrete fixtures used by the witnesses -/

/-- An environment builder: executable lookup, subprocess behaviour and JSON
    parser are supplied; every path exists and is a directory, path resolution
    is the identity, and no path is absolute. -/
def mkEnv (w : String → Option String) (rn : List String → String → RunOutcome)
    (parse : String → Option Json) : Env :=
  { which := w, run := rn, jsonParse := parse,
    pathExists := fun _ => true, isDir := fun _ => true,
    resolvePath := id, parentResolved := id, isAbsolute := fun _ => false }

/-- An environment in which no scanner executable is on the PATH, commands
    complete silently, JSON never parses, and no file-system path exists. -/
def trivEnv : Env :=
  { which := fun _ => none
    run := fun _ _ => .completed 0 "" ""
    jsonParse := fun _ => none
    pathExists := fun _ => false
    isDir := fun _ => false
    resolvePath := id
    parentResolved := id
    isAbsolute := fun _ => false }

/-- A sample resource record with canonical id `"aws_s3_bucket.logs"`. -/
def sampleBucket : ResourceRecord :=
  { file := "f.tf", resource_type := "aws_s3_bucket", resource_name := "logs" }

/-- The response `analyze` produces whenever no scan directory could be
    resolved: everything skipped, one explanatory note, no findings,
    score 100. -/
def skippedResponse : SecurityAnalysisResponse :=
  { findings_count := 0
    findings := []
    findings_by_resource := []
    score := { score := 100
               by_severity := [("critical", 0), ("high", 0), ("medium", 0), ("low", 0)] }
    scanner_status := [("checkov", "skipped"), ("tfsec", "skipped"), ("terrascan", "skipped")]
    scanner_errors := [skipNote]
    summary := "Detected 0 finding(s) from scanner libraries (checkov=skipped, tfsec=skipped, terrascan=skipped). Scanner notes: " ++ skipNote }

/-- An environment whose only scanner is checkov, whose commands exit 0 with
    noisy non-JSON stdout and a stderr warning, and whose JSON parser always
    fails. -/
def parseFailEnv : Env :=
  mkEnv (fun n => if n = "checkov" then some "checkov" else none)
        (fun _ _ => .completed 0 "scanner log noise, no payload" "warning noise")
        (fun _ => none)

/-- An environment in which every scanner is found and every command exits
    with code 2 (an unexpected code for all three adapters). -/
def exitTwoEnv : Env :=
  mkEnv (fun _ => some "exe") (fun _ _ => .completed 2 "sout" "serr") (fun _ => none)

/-- An environment in which every scanner is found and every command times
    out. -/
def timeoutEnv : Env :=
  mkEnv (fun _ => some "exe") (fun _ _ => .timedOut) (fun _ => none)

/-- An environment in which every scanner is found and exits with its allowed
    violations-found code (1 for checkov/tfsec, 3 for terrascan) while writing
    a warning to stderr. -/
def warnEnv : Env :=
  mkEnv (fun _ => some "exe")
        (fun cmd _ =>
          if cmd.getD 1 "" = "scan" then .completed 3 "" "warning: deprecated flag"
          else .completed 1 "" "warning: deprecated flag")
        (fun _ => none)

/-- An environment reproducing the uncaught `TypeError`: checkov is present,
    exits 0, and its stdout parses to a payload whose `failed_checks` is the
    integer `5`, which the item loop then tries to iterate. -/
def bugEnv : Env :=
  mkEnv (fun n => if n = "checkov" then some "checkov" else none)
        (fun _ _ => .completed 0 "payload" "")
        (fun _ => some (Json.obj [("results", Json.obj [("failed_checks", Json.num 5)])]))

/-- An environment in which exactly the file `"/p/a.tf"` is absolute and
    exists, and every parent resolves to `"/p"`; no scanner is on the PATH. -/
def mixedEnv : Env :=
  { which := fun _ => none
    run := fun _ _ => .completed 0 "" ""
    jsonParse := fun _ => none
    pathExists := fun s => s == "/p/a.tf"
    isDir := fun _ => false
    resolvePath := id
    parentResolved := fun _ => "/p"
    isAbsolute := fun s => s == "/p/a.tf" }

/-! ## Helper lemmas -/

/-- `Char.toNat` is injective. -/
lemma char_toNat_injective : Function.Injective Char.toNat := by
  intro a b h
  exact Char.eq_of_val_eq (UInt32.ext h)

/-- `codePoints` is injective. -/
lemma codePoints_injective : Function.Injective codePoints := by
  intro s t h
  have hd : s.data = t.data := List.map_injective_iff.mpr char_toNat_injective h
  cases s
  cases t
  exact congrArg String.mk hd

/-- The code's sort order coincides with the spec's ordering clause. -/
lemma findingLe_iff_specOrder (f g : SecurityFinding) :
    FindingLe f g ↔ SpecFindingOrder f g := by
  have hList : ∀ (x y : List Nat), x ≤ y ↔ x < y ∨ x = y := fun x y => le_iff_lt_or_eq
  simp only [FindingLe, sortKey, SpecFindingOrder, severityRank, specStrictLt,
    Prod.Lex.le_iff, hList, codePoints_injective.eq_iff]

/-- A severity accepted by the `assembleResponse` guard is one of the four
    canonical values. -/
lemma severity_cases {f : SecurityFinding} (h : severityOrder.contains f.severity = true) :
    f.severity = "critical" ∨ f.severity = "high" ∨ f.severity = "medium" ∨ f.severity = "low" := by
  have hmem : f.severity ∈ severityOrder := by
    simpa [List.contains] using h
  simpa [severityOrder] using hmem

/-- Findings whose severities all lie in `severityOrder` are counted exactly
    once each by the four severity predicates. -/
lemma countP_severity_partition (fs : List SecurityFinding)
    (h : ∀ f ∈ fs, severityOrder.contains f.severity = true) :
    fs.countP (fun f => f.severity == "critical") + fs.countP (fun f => f.severity == "high")
      + fs.countP (fun f => f.severity == "medium") + fs.countP (fun f => f.severity == "low")
      = fs.length := by
  induction fs with
  | nil => simp
  | cons f fs ih =>
    have hrest : ∀ g ∈ fs, severityOrder.contains g.severity = true :=
      fun g hg => h g (List.mem_cons_of_mem _ hg)
    have hsum := ih hrest
    rcases severity_cases (h f (List.mem_cons_self _ _)) with hf | hf | hf | hf <;>
      simp only [List.countP_cons, List.length_cons, hf] <;> simp <;> omega

/-- What a successful `assembleResponse` guarantees about the response. -/
lemma assembleResponse_some_eq {st : List (String × String)} {errs : List String}
    {fs : List SecurityFinding} {r : SecurityAnalysisResponse}
    (h : assembleResponse st errs fs = some r) :
    (∀ f ∈ fs, severityOrder.contains f.severity = true) ∧
    r.findings = sortFindings fs ∧
    r.findings_count = (sortFindings fs).length ∧
    r.score.by_severity = severityCounts (sortFindings fs) ∧
    r.score.score = calculateScore (severityCounts (sortFindings fs)) ∧
    r.scanner_status = st ∧ r.scanner_errors = errs := by
  simp only [assembleResponse] at h
  split at h
  case isTrue hall =>
    injection h with h
    subst h
    exact ⟨List.all_eq_true.mp hall, rfl, rfl, rfl, rfl, rfl, rfl⟩
  case isFalse => exact absurd h (by simp)

/-- Every `some` result of `analyze` comes from `assembleResponse`. -/
lemma analyze_some_assemble {env : Env} {res : List ResourceRecord} {dir : Option String}
    {r : SecurityAnalysisResponse} (h : analyze env res dir = some r) :
    ∃ st errs fs, assembleResponse st errs fs = some r := by
  simp only [analyze] at h
  cases hd : resolveScanDir env res dir <;> rw [hd] at h
  · exact ⟨_, _, _, h⟩
  · simp only [bind, Option.bind_eq_some] at h
    obtain ⟨c, _, t, _, ts, _, h⟩ := h
    exact ⟨_, _, _, h⟩

/-! ## Claim theorems -/

/-- C9: severity normalization is case-insensitive over the trimmed,
    lowercased token, first matching bucket wins, and everything outside the
    buckets — including the empty string and `None` — maps to `"low"`;
    in particular `"ERROR" ↦ "high"` and `"foo" ↦ "low"`. -/
theorem normalizeSeverity_table :
    (∀ s : String,
      normalizeSeverity (.str s) =
        (let t := pyLower (pyStrip s)
         if t = "critical" ∨ t = "very_high" then "critical"
         else if t = "high" ∨ t = "error" then "high"
         else if t = "medium" ∨ t = "moderate" ∨ t = "warning" then "medium"
         else "low")) ∧
    normalizeSeverity .null = "low" ∧
    normalizeSeverity (.str "") = "low" ∧
    normalizeSeverity (.str "ERROR") = "high" ∧
    normalizeSeverity (.str "foo") = "low" := by
  refine ⟨fun s => ?_, by decide, by decide, by decide, by decide⟩
  by_cases hs : s = ""
  · subst hs; rfl
  · simp only [normalizeSeverity, pyTruthy, pyStr]
    have : (s != "") = true := by simpa using hs
    rw [this]
    simp

/-- C8: when a scanner executable cannot be located on the search path, each
    adapter reports status `"unavailable"`, an empty findings list, and a
    non-empty error message naming the missing executable. -/
theorem adapters_unavailable_when_missing :
    (∀ (env : Env) (d : String) (m : Matcher), env.which "checkov" = none →
      runCheckov env d m =
        some { findings := [], status := "unavailable",
               error := some "checkov executable not found on PATH." }) ∧
    (∀ (env : Env) (d : String) (m : Matcher), env.which "tfsec" = none →
      runTfsec env d m =
        some { findings := [], status := "unavailable",
               error := some "tfsec executable not found on PATH." }) ∧
    (∀ (env : Env) (d : String) (m : Matcher), env.which "terrascan" = none →
      runTerrascan env d m =
        some { findings := [], status := "unavailable",
               error := some "terrascan executable not found on PATH." }) ∧
    (pyInStr "checkov" "checkov executable not found on PATH." = true ∧
      "checkov executable not found on PATH." ≠ "") ∧
    (pyInStr "tfsec" "tfsec executable not found on PATH." = true ∧
      "tfsec executable not found on PATH." ≠ "") ∧
    (pyInStr "terrascan" "terrascan executable not found on PATH." = true ∧
      "terrascan executable not found on PATH." ≠ "") := by
  refine ⟨?_, ?_, ?_, by decide, by decide, by decide⟩ <;>
    intro env d m h <;> simp only [runCheckov, runTfsec, runTerrascan, h]

/-- Closed witness for C8 at a concrete environment with an empty PATH. -/
theorem adapters_unavailable_when_missing_witness :
    runCheckov trivEnv "/scan" (mkMatcher []) =
      some { findings := [], status := "unavailable",
             error := some "checkov executable not found on PATH." } ∧
    runTfsec trivEnv "/scan" (mkMatcher []) =
      some { findings := [], status := "unavailable",
             error := some "tfsec executable not found on PATH." } ∧
    runTerrascan trivEnv "/scan" (mkMatcher []) =
      some { findings := [], status := "unavailable",
             error := some "terrascan executable not found on PATH." } :=
  ⟨adapters_unavailable_when_missing.1 trivEnv "/scan" (mkMatcher []) rfl,
   adapters_unavailable_when_missing.2.1 trivEnv "/scan" (mkMatcher []) rfl,
   adapters_unavailable_when_missing.2.2.1 trivEnv "/scan" (mkMatcher []) rfl⟩

/-- C3: `_ResourceMatcher.resolve` applies its fallback chain in priority
    order with first match winning — exact id match, then suffix match against
    a known canonical id, then the unique owner of the last segment of a
    dotted reference, then the unique owner of the reference as a resource
    name, then the synthesized fallback — and in particular the two concrete
    behaviours about `"module.x.aws_s3_bucket.logs"` and the empty reference
    over an empty index. -/
theorem resolve_priority_chain :
    (∀ (m : Matcher) (rawRes rawFile : Option String) (r : ResourceRecord),
      m.by_id.lookup (pyStrip (rawRes.getD "")) = some r →
      m.resolve rawRes rawFile =
        (pyStrip (rawRes.getD ""), r.resource_type, r.resource_name, r.file)) ∧
    (∀ (m : Matcher) (rawRes rawFile : Option String) (p : String × ResourceRecord),
      m.by_id.lookup (pyStrip (rawRes.getD "")) = none →
      m.suffixHit (pyStrip (rawRes.getD "")) = some p →
      m.resolve rawRes rawFile = (p.1, p.2.resource_type, p.2.resource_name, p.2.file)) ∧
    (∀ (m : Matcher) (rawRes rawFile : Option String) (r : ResourceRecord),
      m.by_id.lookup (pyStrip (rawRes.getD "")) = none →
      m.suffixHit (pyStrip (rawRes.getD "")) = none →
      m.dottedHit (pyStrip (rawRes.getD "")) = some r →
      m.resolve rawRes rawFile = (canonicalId r, r.resource_type, r.resource_name, r.file)) ∧
    (∀ (m : Matcher) (rawRes rawFile : Option String) (r : ResourceRecord),
      m.by_id.lookup (pyStrip (rawRes.getD "")) = none →
      m.suffixHit (pyStrip (rawRes.getD "")) = none →
      m.dottedHit (pyStrip (rawRes.getD "")) = none →
      m.bareHit (pyStrip (rawRes.getD "")) = some r →
      m.resolve rawRes rawFile = (canonicalId r, r.resource_type, r.resource_name, r.file)) ∧
    (∀ (m : Matcher) (rawRes rawFile : Option String),
      m.by_id.lookup (pyStrip (rawRes.getD "")) = none →
      m.suffixHit (pyStrip (rawRes.getD "")) = none →
      m.dottedHit (pyStrip (rawRes.getD "")) = none →
      m.bareHit (pyStrip (rawRes.getD "")) = none →
      m.resolve rawRes rawFile =
        synthFallback (pyStrip (rawRes.getD "")) (pyStrip (rawFile.getD ""))) ∧
    (mkMatcher [sampleBucket]).resolve (some "module.x.aws_s3_bucket.logs") (some "") =
      ("aws_s3_bucket.logs", "aws_s3_bucket", "logs", "f.tf") ∧
    (mkMatcher []).resolve (some "") (some "") =
      ("unknown_resource.unmapped", "unknown_resource", "unmapped", "") := by
  refine ⟨?_, ?_, ?_, ?_, ?_, by decide, by decide⟩
  · intro m rawRes rawFile r h
    simp only [Matcher.resolve, h]
  · intro m rawRes rawFile p h1 h2
    simp only [Matcher.resolve, h1, h2]
  · intro m rawRes rawFile r h1 h2 h3
    simp only [Matcher.resolve, h1, h2, h3]
  · intro m rawRes rawFile r h1 h2 h3 h4
    simp only [Matcher.resolve, h1, h2, h3, h4]
  · intro m rawRes rawFile h1 h2 h3 h4
    simp only [Matcher.resolve, h1, h2, h3, h4]

/-- Closed witness for C3: the exact-match step, the suffix-match example and
    the empty-reference example at concrete matchers. -/
theorem resolve_priority_chain_witness :
    (mkMatcher [sampleBucket]).resolve (some "aws_s3_bucket.logs") (some "") =
      ("aws_s3_bucket.logs", "aws_s3_bucket", "logs", "f.tf") ∧
    (mkMatcher [sampleBucket]).resolve (some "module.x.aws_s3_bucket.logs") (some "") =
      ("aws_s3_bucket.logs", "aws_s3_bucket", "logs", "f.tf") ∧
    (mkMatcher []).resolve (some "") (some "") =
      ("unknown_resource.unmapped", "unknown_resource", "unmapped", "") :=
  ⟨resolve_priority_chain.1 (mkMatcher [sampleBucket]) (some "aws_s3_bucket.logs")
      (some "") sampleBucket rfl,
   resolve_priority_chain.2.2.2.2.2.1,
   resolve_priority_chain.2.2.2.2.2.2⟩

/-- A list deduplicates to the singleton `[d]` exactly when it is non-empty
    and all of its elements equal `d`. -/
lemma dedup_eq_singleton_iff {l : List String} {d : String} :
    l.dedup = [d] ↔ (l ≠ [] ∧ ∀ x ∈ l, x = d) := by
  constructor
  · intro h
    refine ⟨?_, ?_⟩
    · intro hl
      rw [hl] at h
      simp at h
    · intro x hx
      have hxd : x ∈ l.dedup := List.mem_dedup.mpr hx
      rw [h] at hxd
      simpa using hxd
  · rintro ⟨hne, hall⟩
    obtain ⟨y, hy⟩ := List.exists_mem_of_ne_nil l hne
    have hdmem : d ∈ l.dedup := List.mem_dedup.mpr (by rwa [hall y hy] at hy)
    have hdall : ∀ x ∈ l.dedup, x = d := fun x hx => hall x (List.mem_dedup.mp hx)
    have hnodup := List.nodup_dedup l
    cases hdl : l.dedup with
    | nil =>
      rw [hdl] at hdmem
      simp at hdmem
    | cons a t =>
      have ha : a = d := hdall a (by rw [hdl]; exact List.mem_cons_self _ _)
      cases t with
      | nil => rw [ha]
      | cons b t' =>
        have hb : b = d := hdall b (by rw [hdl]; simp)
        rw [hdl, ha, hb] at hnodup
        simp [List.nodup_cons] at hnodup

/-- C5: an explicitly given (non-empty) scan directory is used only when it
    exists and is a directory, otherwise resolution yields none; an absent
    directory is inferred exactly when the resource records supply a non-empty,
    agreeing set of parent directories (derived from absolute, existing file
    paths); and whenever resolution fails, `analyze` returns the
    all-scanners-skipped response with the explanatory note and attempts no
    scanner. -/
theorem scan_dir_resolution :
    (∀ (env : Env) (res : List ResourceRecord) (s : String), s ≠ "" →
      resolveScanDir env res (some s) =
        (if env.pathExists (env.resolvePath s) && env.isDir (env.resolvePath s)
         then some (env.resolvePath s) else none)) ∧
    (∀ (env : Env) (res : List ResourceRecord) (d : String),
      resolveScanDir env res none = some d ↔
        (candidateParents env res ≠ [] ∧ ∀ x ∈ candidateParents env res, x = d)) ∧
    (∀ (env : Env) (res : List ResourceRecord) (dir : Option String),
      resolveScanDir env res dir = none →
      analyze env res dir = some skippedResponse) := by
  refine ⟨?_, ?_, ?_⟩
  · intro env res s hs
    simp only [resolveScanDir]
    rw [if_pos hs]
  · intro env res d
    simp only [resolveScanDir, inferScanDir]
    constructor
    · intro h
      split at h
      case isTrue hlen =>
        cases hdl : (candidateParents env res).dedup with
        | nil =>
          rw [hdl] at hlen
          simp at hlen
        | cons a t =>
          rw [hdl] at hlen h
          cases t with
          | nil =>
            have had : a = d := by simpa using h
            exact dedup_eq_singleton_iff.mp (by rw [hdl, had])
          | cons b t' => simp at hlen
      case isFalse => exact absurd h (by simp)
    · intro hr
      have hsing := dedup_eq_singleton_iff.mpr hr
      rw [hsing]
      simp
  · intro env res dir h
    simp only [analyze, h]
    decide

/-- Closed witness for C5: in `trivEnv` nothing exists, so an explicit
    directory resolves to none and `analyze` produces the skipped response. -/
theorem scan_dir_resolution_witness :
    resolveScanDir trivEnv [] (some "/explicit") = none ∧
    analyze trivEnv [] none = some skippedResponse :=
  ⟨(scan_dir_resolution.1 trivEnv [] "/explicit" (by decide)).trans (by decide),
   scan_dir_resolution.2.2 trivEnv [] none (by decide)⟩

/-- C6: stdout parsing is lenient.  A strict parse that yields an object wins;
    on strict-parse failure the span from the first `{` to the last `}` is
    re-parsed; if no object is recoverable by either stage the loader yields
    the empty payload, and an adapter facing an empty payload (with the
    executable present and an allowed exit code) reports zero findings with
    status `"ok"` and no error. -/
theorem safe_json_load_lenient :
    (∀ (parse : String → Option Json) (raw : String) (kvs : List (String × Json)),
      pyStrip raw ≠ "" →
      parse (pyStrip raw) = some (.obj kvs) →
      safeJsonLoad parse raw = kvs) ∧
    (∀ (parse : String → Option Json) (raw : String) (kvs : List (String × Json)),
      pyStrip raw ≠ "" →
      parse (pyStrip raw) = none →
      ¬(pyFindL (pyStrip raw).data '{' = -1 ∨ pyRfindL (pyStrip raw).data '}' = -1 ∨
        pyRfindL (pyStrip raw).data '}' ≤ pyFindL (pyStrip raw).data '{') →
      parse (String.mk (((pyStrip raw).data.drop (pyFindL (pyStrip raw).data '{').toNat).take
          ((pyRfindL (pyStrip raw).data '}').toNat + 1 - (pyFindL (pyStrip raw).data '{').toNat))) =
        some (.obj kvs) →
      safeJsonLoad parse raw = kvs) ∧
    (∀ (parse : String → Option Json) (raw : String),
      (∀ (s : String) (kvs : List (String × Json)), parse s ≠ some (.obj kvs)) →
      safeJsonLoad parse raw = []) ∧
    (∀ (env : Env) (d : String) (m : Matcher) (exe : String) (code : Int) (out err : String),
      env.which "checkov" = some exe →
      env.run (checkovCommand exe d) d = .completed code out err →
      (code = 0 ∨ code = 1) →
      safeJsonLoad env.jsonParse (pyStrip out) = [] →
      runCheckov env d m = some { findings := [], status := "ok", error := none }) ∧
    (∀ (env : Env) (d : String) (m : Matcher) (exe : String) (code : Int) (out err : String),
      env.which "tfsec" = some exe →
      env.run (tfsecCommand exe d) d = .completed code out err →
      (code = 0 ∨ code = 1) →
      safeJsonLoad env.jsonParse (pyStrip out) = [] →
      runTfsec env d m = some { findings := [], status := "ok", error := none }) ∧
    (∀ (env : Env) (d : String) (m : Matcher) (exe : String) (code : Int) (out err : String),
      env.which "terrascan" = some exe →
      env.run (terrascanCommand exe d) d = .completed code out err →
      (code = 0 ∨ code = 3) →
      safeJsonLoad env.jsonParse (pyStrip out) = [] →
      runTerrascan env d m = some { findings := [], status := "ok", error := none }) := by
  refine ⟨?_, ?_, ?_, ?_, ?_, ?_⟩
  · intro parse raw kvs hne hp
    simp only [safeJsonLoad]
    rw [if_neg hne, hp]
  · intro parse raw kvs hne hp hspan hp2
    simp only [safeJsonLoad]
    rw [if_neg hne, hp, if_neg hspan, hp2]
  · intro parse raw hp
    simp only [safeJsonLoad]
    split
    · rfl
    · cases hp1 : parse (pyStrip raw) with
      | some j =>
        cases j with
        | obj kvs => exact absurd hp1 (hp _ _)
        | null => rfl
        | bool b => rfl
        | num n => rfl
        | str s => rfl
        | arr xs => rfl
      | none =>
        split
        · contradiction
        · contradiction
        split
        · rfl
        · cases hp2 : parse (String.mk (((pyStrip raw).data.drop
              (pyFindL (pyStrip raw).data '{').toNat).take
              ((pyRfindL (pyStrip raw).data '}').toNat + 1 -
                (pyFindL (pyStrip raw).data '{').toNat))) with
          | some j =>
            cases j with
            | obj kvs => exact absurd hp2 (hp _ _)
            | null => rfl
            | bool b => rfl
            | num n => rfl
            | str s => rfl
            | arr xs => rfl
          | none => rfl
  · intro env d m exe code out err hw hr hcode hload
    have hrc : runCommand env (checkovCommand exe d) d = (code, pyStrip out, pyStrip err) := by
      simp only [runCommand, hr]
    simp only [runCheckov, hw, hrc]
    rw [if_neg (by rcases hcode with h | h <;> simp [h])]
    rw [hload]
    rfl
  · intro env d m exe code out err hw hr hcode hload
    have hrc : runCommand env (tfsecCommand exe d) d = (code, pyStrip out, pyStrip err) := by
      simp only [runCommand, hr]
    simp only [runTfsec, hw, hrc]
    rw [if_neg (by rcases hcode with h | h <;> simp [h])]
    rw [hload]
    rfl
  · intro env d m exe code out err hw hr hcode hload
    have hrc : runCommand env (terrascanCommand exe d) d = (code, pyStrip out, pyStrip err) := by
      simp only [runCommand, hr]
    simp only [runTerrascan, hw, hrc]
    rw [if_neg (by rcases hcode with h | h <;> simp [h])]
    rw [hload]
    rfl

/-- Closed witness for C6: a parser that never yields an object produces the
    empty payload on noisy stdout, and the checkov adapter then reports zero
    findings with status `"ok"` and no error. -/
theorem safe_json_load_lenient_witness :
    safeJsonLoad (fun _ => none) "scanner log noise, no payload" = [] ∧
    runCheckov parseFailEnv "/scan" (mkMatcher []) =
      some { findings := [], status := "ok", error := none } :=
  ⟨safe_json_load_lenient.2.2.1 (fun _ => none) "scanner log noise, no payload"
      (fun _ _ h => Option.noConfusion h),
   safe_json_load_lenient.2.2.2.1 parseFailEnv "/scan" (mkMatcher []) "checkov" 0
      "scanner log noise, no payload" "warning noise" rfl rfl (Or.inl rfl) rfl⟩

/-- Appending to a non-empty string keeps it non-empty. -/
lemma append_ne_empty_left {s : String} (t : String) (h : s ≠ "") : s ++ t ≠ "" := by
  intro he
  apply h
  have hd : s.data ++ t.data = [] := congrArg String.data he
  have h1 : s.data = [] := (List.append_eq_nil.mp hd).1
  cases s
  exact congrArg String.mk h1

/-- C7: an exit code outside the allowed set (checkov and tfsec allow 0 and 1,
    terrascan allows 0 and 3) — with the timeout sentinel 124 among them —
    yields status `"error"`, zero findings, and an error message built from
    stderr, falling back to stdout when stderr is empty; the allowed non-zero
    violations-found code yields a non-error outcome. -/
theorem adapters_error_on_disallowed_exit :
    (∀ (env : Env) (d : String) (m : Matcher) (exe : String) (code : Int) (sout serr : String),
      env.which "checkov" = some exe →
      runCommand env (checkovCommand exe d) d = (code, sout, serr) →
      code ≠ 0 → code ≠ 1 →
      runCheckov env d m =
        some { findings := [], status := "error",
               error := some ("checkov failed (exit " ++ toString code ++ "): " ++
                 pyOrStr serr sout) }) ∧
    (∀ (env : Env) (d : String) (m : Matcher) (exe : String) (code : Int) (sout serr : String),
      env.which "tfsec" = some exe →
      runCommand env (tfsecCommand exe d) d = (code, sout, serr) →
      code ≠ 0 → code ≠ 1 →
      runTfsec env d m =
        some { findings := [], status := "error",
               error := some ("tfsec failed (exit " ++ toString code ++ "): " ++
                 pyOrStr serr sout) }) ∧
    (∀ (env : Env) (d : String) (m : Matcher) (exe : String) (code : Int) (sout serr : String),
      env.which "terrascan" = some exe →
      runCommand env (terrascanCommand exe d) d = (code, sout, serr) →
      code ≠ 0 → code ≠ 3 →
      runTerrascan env d m =
        some { findings := [], status := "error",
               error := some ("terrascan failed (exit " ++ toString code ++ "): " ++
                 pyOrStr serr sout) }) ∧
    (∀ (env : Env) (d : String) (m : Matcher) (exe : String),
      env.which "checkov" = some exe →
      env.run (checkovCommand exe d) d = .timedOut →
      runCheckov env d m =
        some { findings := [], status := "error",
               error := some ("checkov failed (exit 124): " ++
                 ("Command timed out after 300s: " ++
                   String.intercalate " " (checkovCommand exe d))) }) ∧
    (∀ (env : Env) (d : String) (m : Matcher) (exe : String) (out err : String),
      env.which "checkov" = some exe →
      env.run (checkovCommand exe d) d = .completed 1 out err →
      ∀ res, runCheckov env d m = some res → res.status = "ok" ∧ res.error = none) ∧
    (∀ (env : Env) (d : String) (m : Matcher) (exe : String) (out err : String),
      env.which "tfsec" = some exe →
      env.run (tfsecCommand exe d) d = .completed 1 out err →
      ∀ res, runTfsec env d m = some res → res.status = "ok" ∧ res.error = none) ∧
    (∀ (env : Env) (d : String) (m : Matcher) (exe : String) (out err : String),
      env.which "terrascan" = some exe →
      env.run (terrascanCommand exe d) d = .completed 3 out err →
      ∀ res, runTerrascan env d m = some res → res.status = "ok" ∧ res.error = none) := by
  refine ⟨?_, ?_, ?_, ?_, ?_, ?_, ?_⟩
  · intro env d m exe code sout serr hw hrc h0 h1
    simp only [runCheckov, hw, hrc]
    rw [if_pos ⟨h0, h1⟩]
  · intro env d m exe code sout serr hw hrc h0 h1
    simp only [runTfsec, hw, hrc]
    rw [if_pos ⟨h0, h1⟩]
  · intro env d m exe code sout serr hw hrc h0 h3
    simp only [runTerrascan, hw, hrc]
    rw [if_pos ⟨h0, h3⟩]
  · intro env d m exe hw hrun
    have hrc : runCommand env (checkovCommand exe d) d =
        (124, "", "Command timed out after 300s: " ++ String.intercalate " " (checkovCommand exe d)) := by
      simp only [runCommand, hrun]
    simp only [runCheckov, hw, hrc]
    rw [if_pos ⟨by decide, by decide⟩, pyOrStr,
      if_pos (append_ne_empty_left _ (by decide) :
        ("Command timed out after 300s: " : String) ++ String.intercalate " " (checkovCommand exe d) ≠ "")]
    rfl
  · intro env d m exe out err hw hrun res hres
    have hrc : runCommand env (checkovCommand exe d) d = (1, pyStrip out, pyStrip err) := by
      simp only [runCommand, hrun]
    simp only [runCheckov, hw, hrc] at hres
    rw [if_neg (by simp)] at hres
    cases hit : pyIter (match jGetD (safeJsonLoad env.jsonParse (pyStrip out)) "results" (Json.obj []) with
        | .obj kvs => jGetD kvs "failed_checks" (Json.arr [])
        | _ => Json.arr []) with
    | none =>
      rw [hit] at hres
      exact absurd hres (by simp)
    | some items =>
      rw [hit] at hres
      injection hres with h
      rw [← h]
      exact ⟨rfl, rfl⟩
  · intro env d m exe out err hw hrun res hres
    have hrc : runCommand env (tfsecCommand exe d) d = (1, pyStrip out, pyStrip err) := by
      simp only [runCommand, hrun]
    simp only [runTfsec, hw, hrc] at hres
    rw [if_neg (by simp)] at hres
    cases hit : pyIter (jGetD (safeJsonLoad env.jsonParse (pyStrip out)) "results" (Json.arr [])) with
    | none =>
      rw [hit] at hres
      exact absurd hres (by simp)
    | some items =>
      rw [hit] at hres
      injection hres with h
      rw [← h]
      exact ⟨rfl, rfl⟩
  · intro env d m exe out err hw hrun res hres
    have hrc : runCommand env (terrascanCommand exe d) d = (3, pyStrip out, pyStrip err) := by
      simp only [runCommand, hrun]
    simp only [runTerrascan, hw, hrc] at hres
    rw [if_neg (by simp)] at hres
    cases hit : pyIter (match jGetD (safeJsonLoad env.jsonParse (pyStrip out)) "results" (Json.obj []) with
        | .obj kvs => jGetD kvs "violations" (Json.arr [])
        | _ => Json.arr []) with
    | none =>
      rw [hit] at hres
      exact absurd hres (by simp)
    | some items =>
      rw [hit] at hres
      injection hres with h
      rw [← h]
      exact ⟨rfl, rfl⟩

/-- Closed witness for C7: a concrete exit code 2 yields the error outcome
    with stderr in the message, a timeout yields the error outcome with the
    timeout text, and the violations-found code 1 yields a non-error
    outcome. -/
theorem adapters_error_on_disallowed_exit_witness :
    runCheckov exitTwoEnv "/scan" (mkMatcher []) =
      some { findings := [], status := "error",
             error := some "checkov failed (exit 2): serr" } ∧
    runCheckov timeoutEnv "/scan" (mkMatcher []) =
      some { findings := [], status := "error",
             error := some ("checkov failed (exit 124): Command timed out after 300s: " ++
               "exe -d /scan --framework terraform --output json --quiet") } ∧
    (({ findings := [], status := "ok", error := none } : ScannerResult).status = "ok" ∧
      ({ findings := [], status := "ok", error := none } : ScannerResult).error = none) :=
  ⟨(adapters_error_on_disallowed_exit.1 exitTwoEnv "/scan" (mkMatcher []) "exe" 2 "sout" "serr"
      rfl rfl (by decide) (by decide)).trans (by decide),
   (adapters_error_on_disallowed_exit.2.2.2.1 timeoutEnv "/scan" (mkMatcher []) "exe"
      rfl rfl).trans (by decide),
   adapters_error_on_disallowed_exit.2.2.2.2.1 warnEnv "/scan" (mkMatcher []) "exe" "" 
      "warning: deprecated flag" rfl rfl { findings := [], status := "ok", error := none } rfl⟩

/-- C10: whenever the exit code is in the adapter's allowed set, the outcome
    (when the adapter returns one) has status `"ok"` and no error message,
    regardless of stderr content — warnings from a successfully exiting
    scanner never change the status and never produce a scanner error. -/
theorem adapters_ok_on_allowed_exit :
    (∀ (env : Env) (d : String) (m : Matcher) (exe : String) (code : Int) (out err : String),
      env.which "checkov" = some exe →
      env.run (checkovCommand exe d) d = .completed code out err →
      (code = 0 ∨ code = 1) →
      ∀ res, runCheckov env d m = some res → res.status = "ok" ∧ res.error = none) ∧
    (∀ (env : Env) (d : String) (m : Matcher) (exe : String) (code : Int) (out err : String),
      env.which "tfsec" = some exe →
      env.run (tfsecCommand exe d) d = .completed code out err →
      (code = 0 ∨ code = 1) →
      ∀ res, runTfsec env d m = some res → res.status = "ok" ∧ res.error = none) ∧
    (∀ (env : Env) (d : String) (m : Matcher) (exe : String) (code : Int) (out err : String),
      env.which "terrascan" = some exe →
      env.run (terrascanCommand exe d) d = .completed code out err →
      (code = 0 ∨ code = 3) →
      ∀ res, runTerrascan env d m = some res → res.status = "ok" ∧ res.error = none) := by
  refine ⟨?_, ?_, ?_⟩
  · intro env d m exe code out err hw hrun hcode res hres
    have hrc : runCommand env (checkovCommand exe d) d = (code, pyStrip out, pyStrip err) := by
      simp only [runCommand, hrun]
    simp only [runCheckov, hw, hrc] at hres
    rw [if_neg (by rcases hcode with h | h <;> simp [h])] at hres
    cases hit : pyIter (match jGetD (safeJsonLoad env.jsonParse (pyStrip out)) "results" (Json.obj []) with
        | .obj kvs => jGetD kvs "failed_checks" (Json.arr [])
        | _ => Json.arr []) with
    | none =>
      rw [hit] at hres
      exact absurd hres (by simp)
    | some items =>
      rw [hit] at hres
      injection hres with h
      rw [← h]
      exact ⟨rfl, rfl⟩
  · intro env d m exe code out err hw hrun hcode res hres
    have hrc : runCommand env (tfsecCommand exe d) d = (code, pyStrip out, pyStrip err) := by
      simp only [runCommand, hrun]
    simp only [runTfsec, hw, hrc] at hres
    rw [if_neg (by rcases hcode with h | h <;> simp [h])] at hres
    cases hit : pyIter (jGetD (safeJsonLoad env.jsonParse (pyStrip out)) "results" (Json.arr [])) with
    | none =>
      rw [hit] at hres
      exact absurd hres (by simp)
    | some items =>
      rw [hit] at hres
      injection hres with h
      rw [← h]
      exact ⟨rfl, rfl⟩
  · intro env d m exe code out err hw hrun hcode res hres
    have hrc : runCommand env (terrascanCommand exe d) d = (code, pyStrip out, pyStrip err) := by
      simp only [runCommand, hrun]
    simp only [runTerrascan, hw, hrc] at hres
    rw [if_neg (by rcases hcode with h | h <;> simp [h])] at hres
    cases hit : pyIter (match jGetD (safeJsonLoad env.jsonParse (pyStrip out)) "results" (Json.obj []) with
        | .obj kvs => jGetD kvs "violations" (Json.arr [])
        | _ => Json.arr []) with
    | none =>
      rw [hit] at hres
      exact absurd hres (by simp)
    | some items =>
      rw [hit] at hres
      injection hres with h
      rw [← h]
      exact ⟨rfl, rfl⟩

/-- Closed witness for C10: checkov exiting 1 and terrascan exiting 3, both
    with a non-empty stderr warning, still yield status `"ok"` with no
    error. -/
theorem adapters_ok_on_allowed_exit_witness :
    (({ findings := [], status := "ok", error := none } : ScannerResult).status = "ok" ∧
      ({ findings := [], status := "ok", error := none } : ScannerResult).error = none) ∧
    (({ findings := [], status := "ok", error := none } : ScannerResult).status = "ok" ∧
      ({ findings := [], status := "ok", error := none } : ScannerResult).error = none) :=
  ⟨adapters_ok_on_allowed_exit.1 warnEnv "/scan" (mkMatcher []) "exe" 1 ""
      "warning: deprecated flag" rfl rfl (Or.inr rfl)
      { findings := [], status := "ok", error := none } rfl,
   adapters_ok_on_allowed_exit.2.2 warnEnv "/scan" (mkMatcher []) "exe" 3 ""
      "warning: deprecated flag" rfl rfl (Or.inr rfl)
      { findings := [], status := "ok", error := none } rfl⟩

/-- C1: in every response `analyze` returns, the `by_severity` counts sum to
    `findings_count`, `findings_count` equals the length of the findings
    list, and the score is the clamped weighted penalty computed from those
    counts (weights low=2, medium=6, high=12, critical=20), hence always in
    `[0, 100]`. -/
theorem analyze_score_invariants (env : Env) (resources : List ResourceRecord)
    (scanDir : Option String) (r : SecurityAnalysisResponse)
    (h : analyze env resources scanDir = some r) :
    (r.score.by_severity.map Prod.snd).sum = r.findings_count ∧
    r.findings_count = r.findings.length ∧
    r.score.score = max 0 (min 100 (100 -
      (2 * (((r.score.by_severity.lookup "low").getD 0 : Int)) +
       6 * (((r.score.by_severity.lookup "medium").getD 0 : Int)) +
       12 * (((r.score.by_severity.lookup "high").getD 0 : Int)) +
       20 * (((r.score.by_severity.lookup "critical").getD 0 : Int))))) ∧
    0 ≤ r.score.score ∧ r.score.score ≤ 100 := by
  obtain ⟨st, errs, fs, hassem⟩ := analyze_some_assemble h
  obtain ⟨hval, hfind, hcount, hby, hscore, -, -⟩ := assembleResponse_some_eq hassem
  have hvalsorted : ∀ f ∈ sortFindings fs, severityOrder.contains f.severity = true := by
    intro f hf
    exact hval f ((List.perm_insertionSort FindingLe fs).mem_iff.mp hf)
  have hpart := countP_severity_partition (sortFindings fs) hvalsorted
  refine ⟨?_, ?_, ?_, ?_, ?_⟩
  · rw [hby, hcount]
    simp only [severityCounts, List.map, List.sum_cons, List.sum_nil]
    omega
  · rw [hcount, hfind]
  · rw [hscore, hby]
    have hlem : ∀ (a b c d : Nat),
        calculateScore [("critical", a), ("high", b), ("medium", c), ("low", d)] =
          max 0 (min 100 (100 -
            (2 * (d : Int) + 6 * (c : Int) + 12 * (b : Int) + 20 * (a : Int)))) := by
      intro a b c d
      show max 0 (min 100 (100 -
        (20 * (a : Int) + (12 * (b : Int) + (6 * (c : Int) + (2 * (d : Int) + 0)))))) = _
      congr 2
      ring
    rw [show severityCounts (sortFindings fs) =
        [("critical", (sortFindings fs).countP (fun f => f.severity == "critical")),
         ("high", (sortFindings fs).countP (fun f => f.severity == "high")),
         ("medium", (sortFindings fs).countP (fun f => f.severity == "medium")),
         ("low", (sortFindings fs).countP (fun f => f.severity == "low"))] from rfl]
    rw [hlem]
    rfl
  · rw [hscore]
    exact le_max_left 0 _
  · rw [hscore]
    exact max_le (by norm_num) (min_le_left _ _)

/-- Closed witness for C1 at the empty analysis. -/
theorem analyze_score_invariants_witness :
    (skippedResponse.score.by_severity.map Prod.snd).sum = skippedResponse.findings_count ∧
    skippedResponse.findings_count = skippedResponse.findings.length ∧
    skippedResponse.score.score = max 0 (min 100 (100 -
      (2 * (((skippedResponse.score.by_severity.lookup "low").getD 0 : Int)) +
       6 * (((skippedResponse.score.by_severity.lookup "medium").getD 0 : Int)) +
       12 * (((skippedResponse.score.by_severity.lookup "high").getD 0 : Int)) +
       20 * (((skippedResponse.score.by_severity.lookup "critical").getD 0 : Int))))) ∧
    0 ≤ skippedResponse.score.score ∧ skippedResponse.score.score ≤ 100 :=
  analyze_score_invariants trivEnv [] none skippedResponse (by decide)

/-- C2: the findings list of every response is ordered by the spec's ordering
    clause — severity-descending, ties broken by scanner name ascending, then
    by canonical resource id ascending — and the result on identical input is
    unique (deterministic). -/
theorem analyze_findings_sorted (env : Env) (resources : List ResourceRecord)
    (scanDir : Option String) (r : SecurityAnalysisResponse)
    (h : analyze env resources scanDir = some r) :
    List.Pairwise SpecFindingOrder r.findings ∧
    (∀ r', analyze env resources scanDir = some r' → r' = r) := by
  obtain ⟨st, errs, fs, hassem⟩ := analyze_some_assemble h
  obtain ⟨-, hfind, -, -, -, -, -⟩ := assembleResponse_some_eq hassem
  constructor
  · rw [hfind]
    simp only [sortFindings]
    exact (List.sorted_insertionSort FindingLe fs).imp
      (fun {a b} hab => (findingLe_iff_specOrder a b).mp hab)
  · intro r' h'
    exact (Option.some.inj (h.symm.trans h')).symm

/-- Closed witness for C2 at the empty analysis. -/
theorem analyze_findings_sorted_witness :
    List.Pairwise SpecFindingOrder skippedResponse.findings :=
  (analyze_findings_sorted trivEnv [] none skippedResponse (by decide)).1

/-- C4 (code bug): `analyze` is not exception-free.  In `bugEnv` checkov is on
    the PATH, exits 0, and its stdout parses to
    `{"results": {"failed_checks": 5}}`; the item loop `for item in failed:`
    then iterates the integer `5` and the Python method raises `TypeError`
    to the caller (modelled as `none`) instead of returning a result. -/
theorem analyze_type_error_on_non_list_failed_checks :
    analyze bugEnv [] (some "/scan") = none := by decide

/-- Counterexample to C5 as stated: with one record whose file is absolute and
    exists (parent `"/p"`) and a second record carrying only a relative path,
    the directory is still inferred — inference does not require that *every*
    resource record carry an identical parent derived from an absolute,
    existing file path; records without such paths are simply ignored. -/
theorem scan_dir_inference_mixed_counterexample :
    resolveScanDir mixedEnv
      [{ file := "/p/a.tf", resource_type := "aws_instance", resource_name := "a" },
       { file := "rel.tf", resource_type := "aws_instance", resource_name := "b" }] none =
      some "/p" ∧
    mixedEnv.isAbsolute "rel.tf" = false := by decide
